import Mathlib

/-!
Verification of the `useApiRequest` hook (request/state-synchronization
primitive): a shallow embedding of its data model, reducer and dispatcher
operations, together with theorems about stale-response suppression,
callback scheduling, abort invalidation and optimistic mutation.

The embedding translates the TypeScript source directly:
* `UseApiInternalState` mirrors the internal state record
  `{loading, code, message, payload, error}`; JavaScript `null` is `none`,
  an `Error` value is modelled by its message string, and the payload type
  is a parameter `α` (the source uses `any`).
* `stateReducer` mirrors the reducer: it returns the new state together
  with the list of callbacks invoked synchronously inside the reducer
  (`immediate`) and the list of callbacks scheduled via `setTimeout(_, 0)`
  (`deferred`).  In the source, `onLoad` is called synchronously in the
  `"load"` branch, while `onSuccess` / `onFail` / `onError` /
  `onUnsuccessful` are wrapped in `setTimeout`.
* `HookSystem` carries the per-instance sequence counter (`seqRef.current`)
  and the reducer state; `sendRequestStart`, `settle`, `abort`, `mutate`
  and `mount` mirror the dispatcher operations, reporting the number of
  transport calls they issue and the modal presentations they schedule.
-/

namespace MakeItxia

/-- The discriminant of the transport result union
`{state: "success", data} | {state: "error", error}`. -/
inductive ApiRequestStateEnum where
  | success
  | error
  deriving DecidableEq

/-- `ApiRequestData`: the application-level result `{code, message, payload}`
carried by a successful transport round trip. -/
structure ApiRequestData (α : Type) where
  code : Int
  message : String
  payload : Option α
  deriving DecidableEq

/-- `UseApiInternalState`: the state record owned by one hook instance. -/
structure UseApiInternalState (α : Type) where
  loading : Bool
  code : Option Int
  message : Option String
  payload : Option α
  error : Option String
  deriving DecidableEq

/-- The four action kinds of `UseApiReducerAction.type`. -/
inductive ActionType where
  | load
  | done
  | error
  | mutate
  deriving DecidableEq

/-- `UseApiReducerAction`: the reducer action record.  All fields but `type`
are optional in the source (`seq?`, `data?`, `error?`, `mutatedPayload?`). -/
structure UseApiReducerAction (α : Type) where
  seq : Option Nat
  type : ActionType
  data : Option (ApiRequestData α)
  error : Option String
  mutatedPayload : Option α

/-- A lifecycle callback invocation, with the argument it receives. -/
inductive CallbackEvent (α : Type) where
  | onLoad
  | onSuccess (data : ApiRequestData α)
  | onFail (data : ApiRequestData α)
  | onError (err : String)
  | onUnsuccessful
  deriving DecidableEq

/-- Result of one reducer step: the new state, the callbacks the reducer
invoked synchronously while computing it, and the callbacks it scheduled
with `setTimeout(_, 0)` for a later turn of the event loop. -/
structure ReducerResult (α : Type) where
  state : UseApiInternalState α
  immediate : List (CallbackEvent α)
  deferred : List (CallbackEvent α)
  deriving DecidableEq

/-- The default error used when an `"error"` action carries no error:
`new Error("网络请求错误")`. -/
def defaultNetworkErrorMessage : String := "网络请求错误"

/-- The body of the reducer's `switch (action.type)`, reached only after the
sequence-number check passed.  Each branch builds the `newState` fragment of
the source and merges it over the previous state
(`Object.assign({}, state, newState)`), and records the callbacks the branch
fires. -/
def applyAction {α : Type} (formatResult : Option α → Option α)
    (state : UseApiInternalState α) (action : UseApiReducerAction α) :
    ReducerResult α :=
  match action.type with
  | ActionType.load =>
      ⟨{ state with loading := true }, [CallbackEvent.onLoad], []⟩
  | ActionType.done =>
      match action.data with
      | some data =>
          let payload := formatResult data.payload
          let newState : UseApiInternalState α :=
            { loading := false
              code := some data.code
              message := some data.message
              payload := payload
              error := none }
          if data.code = 0 then
            ⟨newState, [], [CallbackEvent.onSuccess data]⟩
          else
            ⟨newState, [], [CallbackEvent.onFail data, CallbackEvent.onUnsuccessful]⟩
      | none => ⟨state, [], []⟩
  | ActionType.error =>
      let err := action.error.getD defaultNetworkErrorMessage
      ⟨{ loading := false
         code := none
         message := none
         payload := none
         error := some err },
       [], [CallbackEvent.onError err, CallbackEvent.onUnsuccessful]⟩
  | ActionType.mutate =>
      ⟨{ state with payload := action.mutatedPayload }, [], []⟩

/-- `stateReducer`: first the sequence-number check
(`if (typeof action.seq === "number" && seqRef.current !== action.seq) return state;`),
then the `switch` on the action type.  `seqCurrent` is the value of
`seqRef.current` at the time the action is reduced. -/
def stateReducer {α : Type} (formatResult : Option α → Option α)
    (seqCurrent : Nat) (state : UseApiInternalState α)
    (action : UseApiReducerAction α) : ReducerResult α :=
  match action.seq with
  | some s =>
      if seqCurrent ≠ s then ⟨state, [], []⟩
      else applyAction formatResult state action
  | none => applyAction formatResult state action

/-- `init`: the lazy initializer of the reducer state,
`{loading: !manual, code: null, message: null, payload: null, error: null}`. -/
def init {α : Type} (manual : Bool) : UseApiInternalState α :=
  { loading := !manual
    code := none
    message := none
    payload := none
    error := none }

/-- The effective formatter: `useOptionalPersistFn(formatResult, (a) => a)`
substitutes the identity when the caller supplies none. -/
def effectiveFormat {α : Type} (formatResult : Option (Option α → Option α)) :
    Option α → Option α :=
  formatResult.getD (fun a => a)

/-- One hook instance's mutable context: the sequence counter
(`seqRef.current`) and the reducer state. -/
structure HookSystem (α : Type) where
  seq : Nat
  st : UseApiInternalState α
  deriving DecidableEq

/-- Outcome of one dispatcher operation: the new instance context, the
callbacks run synchronously, the callbacks scheduled for a later turn, the
number of transport calls issued and the number of modal presentations
scheduled. -/
structure OpResult (α : Type) where
  sys : HookSystem α
  immediate : List (CallbackEvent α)
  deferred : List (CallbackEvent α)
  transportCalls : Nat
  modalsScheduled : Nat
  deriving DecidableEq

/-- A settled transport promise: either it resolved to the discriminated
`ApiRequestResult` union, or it rejected (which the source's `.catch`
treats as "should never happen"). -/
structure ApiResult (α : Type) where
  state : ApiRequestStateEnum
  data : Option (ApiRequestData α)
  error : Option String

/-- How the transport promise settles. -/
inductive TransportOutcome (α : Type) where
  | resolved (result : ApiResult α)
  | rejected (err : String)

/-- The synchronous prefix of `sendRequest`: increment `seqRef.current`,
capture `currentSeq`, dispatch the `"load"` action tagged with it, and issue
one transport call.  Returns the operation outcome together with the
captured sequence number the eventual settlement will carry. -/
def sendRequestStart {α : Type} (formatResult : Option α → Option α)
    (sys : HookSystem α) : OpResult α × Nat :=
  let currentSeq := sys.seq + 1
  let r := stateReducer formatResult currentSeq sys.st
    ⟨some currentSeq, ActionType.load, none, none, none⟩
  (⟨⟨currentSeq, r.state⟩, r.immediate, r.deferred, 1, 0⟩, currentSeq)

/-- The settlement continuation of `sendRequest`: on a resolved promise,
dispatch `"error"` or `"done"` tagged with the captured sequence number and
schedule the modal presentation; on a rejected promise (`.catch`), only log
— no action is dispatched and nothing is scheduled. -/
def settle {α : Type} (formatResult : Option α → Option α)
    (sys : HookSystem α) (currentSeq : Nat) (out : TransportOutcome α) :
    OpResult α :=
  match out with
  | TransportOutcome.resolved result =>
      let r :=
        if result.state = ApiRequestStateEnum.error then
          stateReducer formatResult sys.seq sys.st
            ⟨some currentSeq, ActionType.error, none, result.error, none⟩
        else
          stateReducer formatResult sys.seq sys.st
            ⟨some currentSeq, ActionType.done, result.data, none, none⟩
      ⟨⟨sys.seq, r.state⟩, r.immediate, r.deferred, 0, 1⟩
  | TransportOutcome.rejected _ => ⟨sys, [], [], 0, 0⟩

/-- `abort`: `seqRef.current = seqRef.current + 1` and nothing else. -/
def abort {α : Type} (sys : HookSystem α) : HookSystem α :=
  { sys with seq := sys.seq + 1 }

/-- The argument of `mutate`: a literal replacement value or a pure updater
applied to the previous payload (`typeof arg === "function"`). -/
inductive MutateArg (α : Type) where
  | value (v : Option α)
  | updater (f : Option α → Option α)

/-- The `mutatedPayload` computed by `mutate` from its argument and the
previous payload. -/
def mutateValue {α : Type} (arg : MutateArg α) (previousPayload : Option α) :
    Option α :=
  match arg with
  | MutateArg.value v => v
  | MutateArg.updater f => f previousPayload

/-- `mutate`: compute `mutatedPayload` from the argument and
`reducerState.payload`, then dispatch `{type: "mutate", mutatedPayload}` —
with no `seq` field and no transport call. -/
def mutate {α : Type} (formatResult : Option α → Option α)
    (sys : HookSystem α) (arg : MutateArg α) : OpResult α :=
  let mutatedPayload := mutateValue arg sys.st.payload
  let r := stateReducer formatResult sys.seq sys.st
    ⟨none, ActionType.mutate, none, none, mutatedPayload⟩
  ⟨⟨sys.seq, r.state⟩, r.immediate, r.deferred, 0, 0⟩

/-- First activation of the hook: the state starts as `init manual`, and the
mount effect (`useEffect`) calls `sendRequest()` exactly when `!manual`. -/
def mount {α : Type} (formatResult : Option α → Option α) (manual : Bool) :
    OpResult α :=
  let sys0 : HookSystem α := ⟨0, init manual⟩
  if manual then ⟨sys0, [], [], 0, 0⟩
  else (sendRequestStart formatResult sys0).1

/-- The out-of-order race of two attempts: A triggers, then B triggers, then
B's settlement arrives, then A's (stale) settlement arrives.  Returns the
instance context after B's settlement and after A's late settlement. -/
def raceTrace {α : Type} (formatResult : Option α → Option α)
    (sys : HookSystem α) (outA outB : ApiResult α) :
    HookSystem α × HookSystem α :=
  let a := sendRequestStart formatResult sys
  let b := sendRequestStart formatResult a.1.sys
  let afterB := settle formatResult b.1.sys b.2 (TransportOutcome.resolved outB)
  let afterA := settle formatResult afterB.sys a.2 (TransportOutcome.resolved outA)
  (afterB.sys, afterA.sys)

/-- The `"load"` action tagged with sequence number `s`. -/
def loadAction {α : Type} (s : Nat) : UseApiReducerAction α :=
  ⟨some s, ActionType.load, none, none, none⟩

/-- The `"done"` action tagged with sequence number `s`, carrying `data`. -/
def doneAction {α : Type} (s : Nat) (data : ApiRequestData α) :
    UseApiReducerAction α :=
  ⟨some s, ActionType.done, some data, none, none⟩

/-- The `"error"` action tagged with sequence number `s`, carrying an
optional error. -/
def errorAction {α : Type} (s : Nat) (err : Option String) :
    UseApiReducerAction α :=
  ⟨some s, ActionType.error, none, err, none⟩

/- ### Helper lemmas -/

/-- A reducer action whose captured sequence number differs from the current
counter is a no-op that fires no callback. -/
theorem stateReducer_stale {α : Type} (formatResult : Option α → Option α)
    (seqCurrent : Nat) (state : UseApiInternalState α)
    (action : UseApiReducerAction α) (s : Nat)
    (hs : action.seq = some s) (h : seqCurrent ≠ s) :
    stateReducer formatResult seqCurrent state action = ⟨state, [], []⟩ := by
  unfold stateReducer
  rw [hs]
  simp [h]

/-- A resolved settlement whose captured sequence number is stale changes
nothing but still schedules the modal presentation. -/
theorem settle_stale {α : Type} (formatResult : Option α → Option α)
    (sys : HookSystem α) (currentSeq : Nat) (result : ApiResult α)
    (h : sys.seq ≠ currentSeq) :
    settle formatResult sys currentSeq (TransportOutcome.resolved result) =
      ⟨sys, [], [], 0, 1⟩ := by
  have h1 : stateReducer formatResult sys.seq sys.st
      (⟨some currentSeq, ActionType.error, none, result.error, none⟩ :
        UseApiReducerAction α) = ⟨sys.st, [], []⟩ :=
    stateReducer_stale _ _ _ _ currentSeq rfl h
  have h2 : stateReducer formatResult sys.seq sys.st
      (⟨some currentSeq, ActionType.done, result.data, none, none⟩ :
        UseApiReducerAction α) = ⟨sys.st, [], []⟩ :=
    stateReducer_stale _ _ _ _ currentSeq rfl h
  by_cases hres : result.state = ApiRequestStateEnum.error <;>
    simp [settle, hres, h1, h2]

/-- `settle` never changes the sequence counter. -/
theorem settle_seq {α : Type} (formatResult : Option α → Option α)
    (sys : HookSystem α) (currentSeq : Nat) (out : TransportOutcome α) :
    (settle formatResult sys currentSeq out).sys.seq = sys.seq := by
  cases out with
  | resolved result => rfl
  | rejected err => rfl

/- ### Claim theorems -/

/-- C1: Stale-response suppression — every reducer action whose captured
sequence number differs from the instance counter's present value returns the
state unchanged (and fires no callback); consequently, in the race where
attempt A starts strictly before attempt B and B's settlement is dispatched
before A's, the final observed state equals the state after B's settlement —
A's late settlement has no effect. -/
theorem claim_C1_stale_response_suppression {α : Type}
    (formatResult : Option α → Option α) (sys : HookSystem α)
    (outA outB : ApiResult α) (seqCurrent : Nat)
    (state : UseApiInternalState α) (action : UseApiReducerAction α)
    (s : Nat) (hs : action.seq = some s) (hne : seqCurrent ≠ s) :
    stateReducer formatResult seqCurrent state action = ⟨state, [], []⟩
    ∧ (raceTrace formatResult sys outA outB).2 =
        (raceTrace formatResult sys outA outB).1 := by
  refine ⟨stateReducer_stale _ _ _ _ s hs hne, ?_⟩
  have hseq : (settle formatResult
      (sendRequestStart formatResult
        (sendRequestStart formatResult sys).1.sys).1.sys
      (sendRequestStart formatResult
        (sendRequestStart formatResult sys).1.sys).2
      (TransportOutcome.resolved outB)).sys.seq ≠
      (sendRequestStart formatResult sys).2 := by
    rw [settle_seq]
    show sys.seq + 1 + 1 ≠ sys.seq + 1
    omega
  have key := settle_stale formatResult _ _ outA hseq
  simp only [raceTrace]
  rw [key]

/-- C1 witness: the general theorem applied at a concrete stale action and a
concrete two-attempt race. -/
theorem claim_C1_witness :
    stateReducer (fun a : Option Nat => a) 2
        (⟨true, none, none, none, none⟩ : UseApiInternalState Nat)
        (loadAction 1) = ⟨⟨true, none, none, none, none⟩, [], []⟩
    ∧ (raceTrace (fun a : Option Nat => a) ⟨0, ⟨true, none, none, none, none⟩⟩
        ⟨ApiRequestStateEnum.success, some ⟨0, "A", some 1⟩, none⟩
        ⟨ApiRequestStateEnum.success, some ⟨0, "B", some 2⟩, none⟩).2 =
      (raceTrace (fun a : Option Nat => a) ⟨0, ⟨true, none, none, none, none⟩⟩
        ⟨ApiRequestStateEnum.success, some ⟨0, "A", some 1⟩, none⟩
        ⟨ApiRequestStateEnum.success, some ⟨0, "B", some 2⟩, none⟩).1 :=
  claim_C1_stale_response_suppression (fun a => a)
    ⟨0, ⟨true, none, none, none, none⟩⟩
    ⟨ApiRequestStateEnum.success, some ⟨0, "A", some 1⟩, none⟩
    ⟨ApiRequestStateEnum.success, some ⟨0, "B", some 2⟩, none⟩ 2
    ⟨true, none, none, none, none⟩ (loadAction 1) 1 rfl (by decide)

/-- C2: a current `"done"` action carrying data with `code == 0` sets
`loading = false`, `error = null`, `payload = formatResult(rawPayload)` (with
the identity formatter when none is given), schedules exactly one deferred
`onSuccess` carrying the result data — and in particular never `onFail` —
and runs no callback synchronously. -/
theorem claim_C2_success_action {α : Type}
    (fr : Option (Option α → Option α)) (seqCurrent : Nat)
    (state : UseApiInternalState α) (data : ApiRequestData α)
    (h : data.code = 0) :
    (stateReducer (effectiveFormat fr) seqCurrent state
        (doneAction seqCurrent data)).state.loading = false
    ∧ (stateReducer (effectiveFormat fr) seqCurrent state
        (doneAction seqCurrent data)).state.error = none
    ∧ (stateReducer (effectiveFormat fr) seqCurrent state
        (doneAction seqCurrent data)).state.payload =
        effectiveFormat fr data.payload
    ∧ (stateReducer (effectiveFormat fr) seqCurrent state
        (doneAction seqCurrent data)).deferred =
        [CallbackEvent.onSuccess data]
    ∧ (stateReducer (effectiveFormat fr) seqCurrent state
        (doneAction seqCurrent data)).immediate = [] := by
  simp [stateReducer, doneAction, applyAction, h]

/-- C2 witness: the success-action theorem at a concrete current action with
`code = 0`, no formatter, and a previously failed state. -/
theorem claim_C2_witness :
    ((⟨0, "ok", some 7⟩ : ApiRequestData Nat).code = 0)
    ∧ ((stateReducer (effectiveFormat (none : Option (Option Nat → Option Nat))) 1
        (⟨true, none, none, none, some "old"⟩ : UseApiInternalState Nat)
        (doneAction 1 ⟨0, "ok", some 7⟩)).state.loading = false
      ∧ (stateReducer (effectiveFormat (none : Option (Option Nat → Option Nat))) 1
        (⟨true, none, none, none, some "old"⟩ : UseApiInternalState Nat)
        (doneAction 1 ⟨0, "ok", some 7⟩)).state.error = none
      ∧ (stateReducer (effectiveFormat (none : Option (Option Nat → Option Nat))) 1
        (⟨true, none, none, none, some "old"⟩ : UseApiInternalState Nat)
        (doneAction 1 ⟨0, "ok", some 7⟩)).state.payload =
          effectiveFormat (none : Option (Option Nat → Option Nat)) (some 7)
      ∧ (stateReducer (effectiveFormat (none : Option (Option Nat → Option Nat))) 1
        (⟨true, none, none, none, some "old"⟩ : UseApiInternalState Nat)
        (doneAction 1 ⟨0, "ok", some 7⟩)).deferred =
          [CallbackEvent.onSuccess ⟨0, "ok", some 7⟩]
      ∧ (stateReducer (effectiveFormat (none : Option (Option Nat → Option Nat))) 1
        (⟨true, none, none, none, some "old"⟩ : UseApiInternalState Nat)
        (doneAction 1 ⟨0, "ok", some 7⟩)).immediate = []) :=
  ⟨rfl, claim_C2_success_action none 1 ⟨true, none, none, none, some "old"⟩
    ⟨0, "ok", some 7⟩ rfl⟩

/-- C3: a current `"error"` action sets `loading = false`, clears `code`,
`message` and `payload`, sets `error` to the supplied error (or the default
network-error message when none is supplied), and schedules exactly one
deferred `onError` followed by exactly one deferred `onUnsuccessful`. -/
theorem claim_C3_error_action {α : Type} (formatResult : Option α → Option α)
    (seqCurrent : Nat) (state : UseApiInternalState α) (err : Option String) :
    stateReducer formatResult seqCurrent state (errorAction seqCurrent err) =
      ⟨⟨false, none, none, none, some (err.getD defaultNetworkErrorMessage)⟩,
        [],
        [CallbackEvent.onError (err.getD defaultNetworkErrorMessage),
          CallbackEvent.onUnsuccessful]⟩ := by
  simp [stateReducer, errorAction, applyAction]

/-- C4 counterexample: a current start (`"load"`) action does not clear a
previously set error — starting from a state with `error = "boom"`, the
reduced state still has `error = "boom"`, refuting "after the reducer
processes a current start action ... the resulting state has error = null
regardless of the prior state" (the `"load"` branch merges only
`{loading: true}` over the previous state). -/
theorem claim_C4_counterexample :
    (stateReducer (fun a : Option Nat => a) 1
        (⟨false, none, none, none, some "boom"⟩ : UseApiInternalState Nat)
        (loadAction 1)).state.error ≠ none := by
  decide

/-- C4 (amended): a current success (`"done"`-with-data) action always
leaves `error = null` in the resulting state, but a current start action
leaves the `error` field exactly as it was — error is cleared by success,
not by start. -/
theorem claim_C4_amended_error_invariant {α : Type}
    (formatResult : Option α → Option α) (seqCurrent : Nat)
    (state : UseApiInternalState α) (data : ApiRequestData α) :
    (stateReducer formatResult seqCurrent state
        (doneAction seqCurrent data)).state.error = none
    ∧ (stateReducer formatResult seqCurrent state
        (loadAction seqCurrent)).state.error = state.error := by
  constructor
  · by_cases h : data.code = 0 <;>
      simp [stateReducer, doneAction, applyAction, h]
  · simp [stateReducer, loadAction, applyAction]

/-- C5: frame property of `mutate` — for every state and every argument
(literal replacement or pure updater applied to the previous payload), the
operation replaces only `payload`, leaves `loading`, `code`, `message` and
`error` unchanged, issues no transport call and fires or schedules no
lifecycle callback. -/
theorem claim_C5_mutate_frame {α : Type} (formatResult : Option α → Option α)
    (sys : HookSystem α) (arg : MutateArg α) :
    (mutate formatResult sys arg).sys.st.payload =
        mutateValue arg sys.st.payload
    ∧ (mutate formatResult sys arg).sys.st.loading = sys.st.loading
    ∧ (mutate formatResult sys arg).sys.st.code = sys.st.code
    ∧ (mutate formatResult sys arg).sys.st.message = sys.st.message
    ∧ (mutate formatResult sys arg).sys.st.error = sys.st.error
    ∧ (mutate formatResult sys arg).transportCalls = 0
    ∧ (mutate formatResult sys arg).immediate = []
    ∧ (mutate formatResult sys arg).deferred = [] :=
  ⟨rfl, rfl, rfl, rfl, rfl, rfl, rfl, rfl⟩

/-- C6: `abort` increments the sequence counter by one and performs no state
transition itself; any settlement (success, error, or rejection) of an
attempt captured before the abort leaves the post-abort instance context —
in particular `loading` — unchanged, and issues no transport call. -/
theorem claim_C6_abort_invalidation {α : Type}
    (formatResult : Option α → Option α) (sys : HookSystem α)
    (capturedSeq : Nat) (out : TransportOutcome α)
    (h : capturedSeq ≤ sys.seq) :
    (abort sys).seq = sys.seq + 1
    ∧ (abort sys).st = sys.st
    ∧ (settle formatResult (abort sys) capturedSeq out).sys = abort sys
    ∧ (settle formatResult (abort sys) capturedSeq out).transportCalls = 0
    ∧ (settle formatResult (abort sys) capturedSeq out).sys.st.loading =
        sys.st.loading := by
  have hne : (abort sys).seq ≠ capturedSeq := by
    show sys.seq + 1 ≠ capturedSeq
    omega
  have hmain : (settle formatResult (abort sys) capturedSeq out).sys =
      abort sys := by
    cases out with
    | resolved result => rw [settle_stale formatResult _ _ result hne]
    | rejected e => rfl
  have hcalls : (settle formatResult (abort sys) capturedSeq out).transportCalls
      = 0 := by
    cases out with
    | resolved result => rfl
    | rejected e => rfl
  exact ⟨rfl, rfl, hmain, hcalls, by rw [hmain]; rfl⟩

/-- C6 witness: the abort-invalidation theorem at a concrete pre-abort
attempt whose successful settlement arrives after the abort. -/
theorem claim_C6_witness :
    (1 : Nat) ≤ 1
    ∧ ((abort (⟨1, ⟨true, none, none, none, none⟩⟩ : HookSystem Nat)).seq = 1 + 1
      ∧ (abort (⟨1, ⟨true, none, none, none, none⟩⟩ : HookSystem Nat)).st =
          ⟨true, none, none, none, none⟩
      ∧ (settle (fun a : Option Nat => a)
          (abort ⟨1, ⟨true, none, none, none, none⟩⟩) 1
          (TransportOutcome.resolved
            ⟨ApiRequestStateEnum.success, some ⟨0, "ok", some 3⟩, none⟩)).sys =
          abort ⟨1, ⟨true, none, none, none, none⟩⟩
      ∧ (settle (fun a : Option Nat => a)
          (abort ⟨1, ⟨true, none, none, none, none⟩⟩) 1
          (TransportOutcome.resolved
            ⟨ApiRequestStateEnum.success, some ⟨0, "ok", some 3⟩, none⟩)).transportCalls = 0
      ∧ (settle (fun a : Option Nat => a)
          (abort ⟨1, ⟨true, none, none, none, none⟩⟩) 1
          (TransportOutcome.resolved
            ⟨ApiRequestStateEnum.success, some ⟨0, "ok", some 3⟩, none⟩)).sys.st.loading =
          (⟨true, none, none, none, none⟩ : UseApiInternalState Nat).loading) :=
  ⟨by decide, claim_C6_abort_invalidation (fun a => a)
    ⟨1, ⟨true, none, none, none, none⟩⟩ 1
    (TransportOutcome.resolved
      ⟨ApiRequestStateEnum.success, some ⟨0, "ok", some 3⟩, none⟩)
    (by decide)⟩

/-- C7 counterexample: on a concrete current start action, the reducer's
deferred-callback list is empty and `onLoad` appears in the list of
callbacks invoked synchronously inside the reducer — refuting the claim
that `onLoad` is scheduled asynchronously (deferred like
`onSuccess`/`onFail`/`onError`/`onUnsuccessful`) and so never runs before
the state transition producing `loading = true` completes. -/
theorem claim_C7_counterexample :
    (stateReducer (fun a : Option Nat => a) 1
        (⟨false, none, none, none, none⟩ : UseApiInternalState Nat)
        (loadAction 1)).deferred = []
    ∧ (stateReducer (fun a : Option Nat => a) 1
        (⟨false, none, none, none, none⟩ : UseApiInternalState Nat)
        (loadAction 1)).immediate = [CallbackEvent.onLoad] := by
  decide

/-- C7 (amended): for every current start action, the reducer sets
`loading = true`, but it invokes `onLoad` synchronously during the reducer
call itself (its deferred-callback list is empty) — unlike
`onSuccess`/`onFail`/`onError`/`onUnsuccessful`, which are deferred with
`setTimeout`; `onLoad` therefore runs before the state transition
completes, not after. -/
theorem claim_C7_amended_onload_sync {α : Type}
    (formatResult : Option α → Option α) (seqCurrent : Nat)
    (state : UseApiInternalState α) :
    (stateReducer formatResult seqCurrent state
        (loadAction seqCurrent)).state.loading = true
    ∧ (stateReducer formatResult seqCurrent state
        (loadAction seqCurrent)).immediate = [CallbackEvent.onLoad]
    ∧ (stateReducer formatResult seqCurrent state
        (loadAction seqCurrent)).deferred = [] := by
  simp [stateReducer, loadAction, applyAction]

/-- C8: manual mode — with `manual = true` the initial state has
`loading = false` and first activation issues no transport call, while an
explicit `sendRequest()` then transitions `loading` to `true` with exactly
one transport call; with `manual = false` first activation issues exactly
one automatic transport call and the initial state has `loading = true`. -/
theorem claim_C8_manual_mode {α : Type} (formatResult : Option α → Option α) :
    (init true : UseApiInternalState α).loading = false
    ∧ (mount formatResult true).transportCalls = 0
    ∧ (mount formatResult true).sys.st.loading = false
    ∧ (sendRequestStart formatResult
        (mount formatResult true).sys).1.sys.st.loading = true
    ∧ (sendRequestStart formatResult
        (mount formatResult true).sys).1.transportCalls = 1
    ∧ (init false : UseApiInternalState α).loading = true
    ∧ (mount formatResult false).transportCalls = 1
    ∧ (mount formatResult false).sys.st.loading = true :=
  ⟨rfl, rfl, rfl, rfl, rfl, rfl, rfl, rfl⟩

/-- C9: transport-rejection containment — a rejected transport promise
(`.catch`) dispatches no action, runs and schedules no callback, schedules
no modal, and leaves the instance context unchanged; in particular, after a
start whose settlement rejects, `loading` remains `true` as set by the
start action. -/
theorem claim_C9_rejection_containment {α : Type}
    (formatResult : Option α → Option α) (sys : HookSystem α)
    (capturedSeq : Nat) (e : String) :
    settle formatResult sys capturedSeq (TransportOutcome.rejected e) =
      ⟨sys, [], [], 0, 0⟩
    ∧ (settle formatResult (sendRequestStart formatResult sys).1.sys
        ((sendRequestStart formatResult sys).2)
        (TransportOutcome.rejected e)).sys.st.loading = true := by
  refine ⟨rfl, ?_⟩
  simp [settle, sendRequestStart, stateReducer, applyAction]

/-- C10: the `mutate` dispatch carries no sequence number, so the staleness
guard never filters it — for every counter value the mutate action replaces
the payload (with no callbacks), and it applies even immediately after an
`abort`; a still-current attempt settling successfully after such a mutate
then overwrites the optimistically mutated payload with the formatted
response payload. -/
theorem claim_C10_mutate_unsequenced {α : Type}
    (formatResult : Option α → Option α) (seqCurrent : Nat)
    (state : UseApiInternalState α) (mp : Option α)
    (sys : HookSystem α) (arg : MutateArg α) (data : ApiRequestData α) :
    stateReducer formatResult seqCurrent state
        (⟨none, ActionType.mutate, none, none, mp⟩ : UseApiReducerAction α) =
      ⟨{ state with payload := mp }, [], []⟩
    ∧ (mutate formatResult (abort sys) arg).sys.st.payload =
        mutateValue arg sys.st.payload
    ∧ (settle formatResult
          (mutate formatResult (sendRequestStart formatResult sys).1.sys arg).sys
          ((sendRequestStart formatResult sys).2)
          (TransportOutcome.resolved
            ⟨ApiRequestStateEnum.success, some data, none⟩)).sys.st.payload =
        formatResult data.payload := by
  refine ⟨rfl, rfl, ?_⟩
  by_cases h : data.code = 0 <;>
    simp [settle, mutate, sendRequestStart, stateReducer, applyAction, h]

end MakeItxia
